import Mathlib

/-!
# Verification of the `axum-demo` security and audit-middleware core

A shallow embedding of the capability-checked authentication layer
(`src/infra/security.rs`) and the audit-logging middleware
(`src/infra/middleware.rs`), with theorems settling the specification claims
about them.

Conventions of the embedding:
* Rust `Result<T, E>` becomes `Except E T`; `Option<T>` becomes `Option T`.
* Byte buffers (`Bytes` / `Vec<u8>`) become `List Nat` (byte values).
* External collaborators (the SQL credential store, the bcrypt verifier,
  the UTF-8 decoder of `String::from_utf8`, the audit persistence sink)
  are passed in as explicit function parameters.
* A Rust panic (`unwrap()` on an `Err`) is a distinct outcome constructor,
  separate from returning an error value.
-/

/-- `ClientError` from `src/infra/error.rs`: errors caused by the client. -/
inductive ClientError where
  | badRequest (msg : String)
  | unsupportedMediaType
  | unauthorized
  | forbidden
  | notFound
  | conflict
  | unprocessableEntity (msg : String)
  | custom (status : Nat) (msg : String)
deriving DecidableEq, Repr

/-- Internal (non-client-attributable) errors. In `src/infra/error.rs` the
`InternalError` side of `ApiError` wraps an arbitrary error value; we
distinguish the sources that the embedded code actually produces:
session-store failures (`InternalError::Other`), database driver failures
(`From<sqlx::Error>` in its catch-all arm), and bcrypt failures
(`From<bcrypt::BcryptError>`). -/
inductive InternalError where
  | other (msg : String)
  | db (msg : String)
  | bcrypt (msg : String)
deriving DecidableEq, Repr

/-- Modelled from the spec: the `Redirection` error type
(`RedirectRequired` in the spec's error taxonomy) is referenced by
`src/infra/security.rs` (`Redirection::ToLogin`) but its definition is not
among the provided sources; only the `ToLogin` variant that the sources use
is modelled. -/
inductive Redirection where
  | toLogin
deriving DecidableEq, Repr

/-- `ApiError` from `src/infra/error.rs`, extended with the `Redirection`
case that `security.rs` converts into an `ApiError` via `ApiError::from`. -/
inductive ApiError where
  | clientError (e : ClientError)
  | internalError (e : InternalError)
  | redirection (r : Redirection)
deriving DecidableEq, Repr

/-- `User` from `src/infra/security.rs` (the spec's `Principal`): the three
runtime fields.  The phantom role-capability parameter `R` carries no
runtime data, so the embedding tracks the capability by which `Role`
value a `User` was checked against, in the theorems rather than the type. -/
structure User where
  id : Int
  username : String
  role : String
deriving DecidableEq, Repr

/-- The `Role` trait of `src/infra/security.rs` (the spec's
`RoleCapability`): a single predicate over the caller's role strings.  An
implementation of the trait is embedded as a value of this structure. -/
structure Role where
  is_satisfied : List String → Bool

/-- `ADMIN_ROLE` constant from `src/infra/security.rs`. -/
def ADMIN_ROLE : String := "admin"

/-- The `Unknown` role (spec: `Unrestricted`): always satisfied. -/
def Unknown : Role := ⟨fun _ => true⟩

/-- The `Admin` role (spec: `AdminOnly`): satisfied iff the role set
contains `ADMIN_ROLE`. -/
def Admin : Role := ⟨fun roles => roles.contains ADMIN_ROLE⟩

/-- `User::try_upgrade` from `src/infra/security.rs`: re-checks the new
role against the single stored role string; on success rebuilds the user
with the same fields, otherwise returns `Forbidden`. -/
def try_upgrade (u : User) (newRole : Role) : Except ApiError User :=
  if newRole.is_satisfied [u.role] then
    Except.ok ⟨u.id, u.username, u.role⟩
  else
    Except.error (ApiError.clientError ClientError.forbidden)

/-- One row of the `users` table as selected by `authenticate`
(`SELECT id, password, role FROM users WHERE username = $1`). -/
structure DbUser where
  id : Int
  password : String
  role : String
deriving DecidableEq, Repr

/-- The credential store collaborator: looking a username up in the
database either fails (driver error) or yields at most one row. -/
def CredStore : Type := String → Except String (Option DbUser)

/-- The bcrypt collaborator: `bcrypt::verify(password, stored_hash)`
either fails or decides whether the password matches. -/
def VerifyFn : Type := String → String → Except String Bool

/-- `authenticate` from `src/infra/security.rs` (the backing function
inside the `#[cached]` wrapper; the cache itself is modelled separately by
`cached_authenticate`): fetch the row for the username (`Unauthorized` if
absent), verify the password against the stored hash, and either mint a
base user or fail with `Unauthorized`. -/
def authenticate (store : CredStore) (verify : VerifyFn)
    (username password : String) : Except ApiError User :=
  match store username with
  | Except.error e => Except.error (ApiError.internalError (InternalError.db e))
  | Except.ok none => Except.error (ApiError.clientError ClientError.unauthorized)
  | Except.ok (some row) =>
    match verify password row.password with
    | Except.error e => Except.error (ApiError.internalError (InternalError.bcrypt e))
    | Except.ok true => Except.ok ⟨row.id, username, row.role⟩
    | Except.ok false => Except.error (ApiError.clientError ClientError.unauthorized)

/-- The session collaborator for one request: `session.get::<User>("user")`
either fails (deserialization/store error) or yields the stored user, if
any.  A request either has such a session mechanism or does not. -/
structure Session where
  get_user : Except String (Option User)

/-- `extract_user_from_session` from `src/infra/security.rs`: with no
session mechanism, yields nothing; with a session, a store failure is an
internal error, a stored user is upgraded to the required role, and an
empty session is answered with a redirect to the login page. -/
def extract_user_from_session (R : Role) (sess : Option Session) :
    Except ApiError (Option User) :=
  match sess with
  | none => Except.ok none
  | some s =>
    match s.get_user with
    | Except.error e => Except.error (ApiError.internalError (InternalError.other e))
    | Except.ok (some u) =>
      match try_upgrade u R with
      | Except.ok u' => Except.ok (some u')
      | Except.error e => Except.error e
    | Except.ok none => Except.error (ApiError.redirection Redirection.toLogin)

/-- `User::from_request_parts` from `src/infra/security.rs` (the spec's
`PrincipalResolver`): first the session shortcut, then the Basic
authorization header (`Unauthorized` if absent), then `authenticate`,
then the capability upgrade required by the handler. -/
def from_request_parts (R : Role) (sess : Option Session)
    (auth : Option (String × String)) (store : CredStore) (verify : VerifyFn) :
    Except ApiError User :=
  match extract_user_from_session R sess with
  | Except.error e => Except.error e
  | Except.ok (some u) => Except.ok u
  | Except.ok none =>
    match auth with
    | none => Except.error (ApiError.clientError ClientError.unauthorized)
    | some (username, password) =>
      match authenticate store verify username password with
      | Except.error e => Except.error e
      | Except.ok u => try_upgrade u R

/-! ## The credential-verification cache

`src/infra/security.rs` wraps `authenticate` in
`#[cached(size = 100, time = 30, time_refresh, sync_writes = true,
key = "String", convert = format ... username:password, result = true)]`.
The definitions below embed the behaviour of the `cached` crate's timed
cache as configured by these parameters: entries live for 30 seconds,
`time_refresh` renews an entry's timestamp on every cache hit,
`result = true` caches only `Ok` results, and the key is the plain string
concatenation of username, a colon, and password.  Time is an explicit
natural-number parameter (seconds); the `size = 100` LRU bound is not
modelled (eviction only removes entries, it never serves additional
stale data). -/

/-- The memoization key of the `#[cached]` attribute on `authenticate`:
`format!("{}:{}", username, password)`. -/
def auth_key (username password : String) : String :=
  username ++ ":" ++ password

/-- The TTL, in seconds, of the `#[cached]` attribute (`time = 30`). -/
def cache_ttl : Nat := 30

/-- One cache entry: the timestamp of its last store or (because of
`time_refresh`) last hit, and the cached `Ok` value. -/
structure CacheEntry where
  stamp : Nat
  value : User
deriving DecidableEq, Repr

/-- The cache state: an association list from keys to entries. -/
def Cache : Type := List (String × CacheEntry)

/-- The entry currently stored for a key, if any. -/
def cache_find (c : Cache) (key : String) : Option CacheEntry :=
  match c with
  | [] => none
  | (k, e) :: rest => if k = key then some e else cache_find rest key

/-- A timed-cache read at time `now`: an entry younger than `cache_ttl`
is a hit and (`time_refresh`) has its timestamp renewed to `now`; an
older entry is expired and is treated as a miss. -/
def cache_get (c : Cache) (key : String) (now : Nat) : Option User × Cache :=
  match c with
  | [] => (none, [])
  | (k, e) :: rest =>
    if k = key then
      if now - e.stamp < cache_ttl then
        (some e.value, (k, ⟨now, e.value⟩) :: rest)
      else
        (none, (k, e) :: rest)
    else
      let r := cache_get rest key now
      (r.1, (k, e) :: r.2)

/-- A timed-cache write at time `now`: insert or overwrite the entry. -/
def cache_set (c : Cache) (key : String) (now : Nat) (u : User) : Cache :=
  match c with
  | [] => [(key, ⟨now, u⟩)]
  | (k, e) :: rest =>
    if k = key then (k, ⟨now, u⟩) :: rest
    else (k, e) :: cache_set rest key now u

/-- The cached wrapper around `authenticate` generated by the `#[cached]`
attribute: look the key up; on a hit return the cached user; on a miss
call the backing `authenticate`, caching the result only when it is `Ok`
(`result = true`). -/
def cached_authenticate (store : CredStore) (verify : VerifyFn)
    (username password : String) (now : Nat) (c : Cache) :
    Except ApiError User × Cache :=
  let key := auth_key username password
  match cache_get c key now with
  | (some u, c') => (Except.ok u, c')
  | (none, c') =>
    match authenticate store verify username password with
    | Except.ok u => (Except.ok u, cache_set c' key now u)
    | Except.error e => (Except.error e, c')

/-! ## The audit-logging middleware (`src/infra/middleware.rs`) -/

/-- A possibly-failing outcome of running a piece of the middleware: a
value, a returned `ApiError`, or a Rust panic (an `unwrap()` of an
`Err`). -/
inductive Outcome (α : Type) where
  | ok (a : α)
  | err (e : ApiError)
  | panicked
deriving DecidableEq, Repr

/-- Equality of `Except` values is decidable when it is on both sides. -/
instance exceptDecEq (ε α : Type) [DecidableEq ε] [DecidableEq α] :
    DecidableEq (Except ε α) := fun x y =>
  match x, y with
  | Except.ok a, Except.ok b =>
    if h : a = b then isTrue (by rw [h])
    else isFalse (by intro he; cases he; exact h rfl)
  | Except.error a, Except.error b =>
    if h : a = b then isTrue (by rw [h])
    else isFalse (by intro he; cases he; exact h rfl)
  | Except.ok _, Except.error _ => isFalse (by intro he; cases he)
  | Except.error _, Except.ok _ => isFalse (by intro he; cases he)

/-- An HTTP body: the upper bound of its `size_hint` (declared size), and
the result of collecting the underlying stream — either the full byte
content or a transport error. -/
structure Body where
  size_hint_upper : Option Nat
  collect : Except String (List Nat)
deriving DecidableEq, Repr

/-- `Body::from(bytes)`: an in-memory body whose declared size is exact
and whose stream yields exactly those bytes. -/
def body_from_bytes (bs : List Nat) : Body :=
  ⟨some bs.length, Except.ok bs⟩

/-- A request as seen by the middleware: the `Host` header (absent, or
present and either convertible to a string or not), method, URI, and
body. -/
structure Request where
  host_header : Option (Except String String)
  method : String
  uri : String
  body : Body

/-- A response as produced by the downstream handler: status code and
body. -/
structure Response where
  status : Nat
  body : Body

/-- `NewRequest` from `src/api/request/request_repository.rs`: the audit
record handed to the persistence sink. -/
structure NewRequest where
  host : String
  method : String
  uri : String
  request_body : Option String
  response_body : Option String
  status : Nat
deriving DecidableEq, Repr

/-- The UTF-8 decoding collaborator (`String::from_utf8(bytes).ok()`):
`some` exactly on valid UTF-8 byte sequences. -/
def Utf8Decode : Type := List Nat → Option String

/-- `MAX_BODY_SIZE` from `src/infra/middleware.rs`: the body-capture
ceiling in bytes. -/
def MAX_BODY_SIZE : Nat := 8192

/-- The capture decision of `log_request_response`: a body is buffered
only when the upper bound of its size hint is declared and at most
`MAX_BODY_SIZE`. -/
def should_log (b : Body) : Bool :=
  match b.size_hint_upper with
  | some n => decide (n ≤ MAX_BODY_SIZE)
  | none => false

/-- `buffer_and_print` from `src/infra/middleware.rs`: collect the whole
body stream into memory.  The source calls `.unwrap()` on the collected
result, so a transport error is a panic, not a returned error. -/
def buffer_and_print (b : Body) : Outcome (List Nat) :=
  match b.collect with
  | Except.ok bs => Outcome.ok bs
  | Except.error _ => Outcome.panicked

/-- One capture phase of `log_request_response`: if the body is small
enough, buffer it, rebuild an in-memory body from the buffered bytes for
the other side, and decode the bytes as UTF-8 for the audit record;
otherwise pass the body through untouched and record nothing. -/
def capture (utf8 : Utf8Decode) (b : Body) : Outcome (Body × Option String) :=
  if should_log b then
    match buffer_and_print b with
    | Outcome.ok bs => Outcome.ok (body_from_bytes bs, utf8 bs)
    | Outcome.err e => Outcome.err e
    | Outcome.panicked => Outcome.panicked
  else
    Outcome.ok (b, none)

/-- The `Host`-header handling of `log_request_response`: a missing
header records `"Unknown"`; a header that cannot be converted to a
string is a `BadRequest` failure. -/
def host_of (r : Request) : Except ApiError String :=
  match r.host_header with
  | none => Except.ok "Unknown"
  | some (Except.ok s) => Except.ok s
  | some (Except.error e) => Except.error (ApiError.clientError (ClientError.badRequest e))

/-- The audit persistence sink: whether the `store_request` call of
attempt number `i` (0-based) succeeds, given the record it writes. -/
def Sink : Type := NewRequest → Nat → Bool

/-- The retry loop of the background task spawned by
`log_request_response`, `while tries < 3 { ... }`: attempts the write as
long as `tries < 3`; each failure increments `tries` and then sleeps
`(tries + 1) * 5` seconds.  `fuel` is `3 - tries`.  Returns the number of
write attempts made and the list of sleep durations, in seconds, in
order. -/
def audit_go (sink : Nat → Bool) (tries : Nat) : Nat → Nat × List Nat
  | 0 => (0, [])
  | fuel + 1 =>
    if sink tries then
      (1, [])
    else
      let r := audit_go sink (tries + 1) fuel
      (r.1 + 1, (tries + 2) * 5 :: r.2)

/-- The whole background retry task: start with `tries = 0` and the
three-attempt budget. -/
def audit_run (sink : Nat → Bool) : Nat × List Nat :=
  audit_go sink 0 3

/-- Everything `log_request_response` produces for one request: the body
handed to the downstream handler, the body and status returned to the
caller, the audit record, and the behaviour (attempt count and sleeps) of
the detached audit task. -/
structure MidOutput where
  downstream_body : Body
  caller_body : Body
  status : Nat
  record : NewRequest
  audit : Nat × List Nat
deriving DecidableEq, Repr

/-- `log_request_response` from `src/infra/middleware.rs`: capture the
request body (size-bounded, UTF-8 best-effort), read the `Host` header,
run the downstream handler on the (reconstructed) request, capture the
response body the same way, build the `NewRequest` audit record, spawn
the detached retry task for it, and return the response. -/
def log_request_response (utf8 : Utf8Decode) (sink : Sink)
    (req : Request) (handler : Body → Response) : Outcome MidOutput :=
  match capture utf8 req.body with
  | Outcome.err e => Outcome.err e
  | Outcome.panicked => Outcome.panicked
  | Outcome.ok (dsBody, req_string) =>
    match host_of req with
    | Except.error e => Outcome.err e
    | Except.ok host =>
      let res := handler dsBody
      match capture utf8 res.body with
      | Outcome.err e => Outcome.err e
      | Outcome.panicked => Outcome.panicked
      | Outcome.ok (callerBody, res_string) =>
        let record : NewRequest :=
          ⟨host, req.method, req.uri, req_string, res_string, res.status⟩
        Outcome.ok
          { downstream_body := dsBody
            caller_body := callerBody
            status := res.status
            record := record
            audit := audit_run (sink record) }

/-- The final, caller-visible end of a request after the outermost
layers of `src/server.rs`. -/
inductive Final where
  | success (out : MidOutput)
  | failure (e : ApiError)
deriving DecidableEq, Repr

/-- `CatchPanicLayer::custom(PanicHandler)` from `src/server.rs` together
with `PanicHandler` from `src/infra/error.rs`: a middleware error becomes
its error response, and a panic is caught and answered with
`ApiError::InternalError(anyhow!("panic"))`'s response. -/
def catch_panic_run (o : Outcome MidOutput) : Final :=
  match o with
  | Outcome.ok out => Final.success out
  | Outcome.err e => Final.failure e
  | Outcome.panicked => Final.failure (ApiError.internalError (InternalError.other "panic"))

/-- The caller-visible part of a middleware outcome: the status and body
of the response (or the failure).  Used to state that the audit sink's
behaviour cannot influence what the caller receives. -/
def response_view (o : Outcome MidOutput) : Outcome (Nat × Body) :=
  match o with
  | Outcome.ok out => Outcome.ok (out.status, out.caller_body)
  | Outcome.err e => Outcome.err e
  | Outcome.panicked => Outcome.panicked

/-! ## Concrete collaborators used to instantiate the theorems -/

/-- A concrete credential store: one user row, username `"user"`,
stored password `"secret"`, role `"user"`. -/
def exStore : CredStore := fun un =>
  if un == "user" then Except.ok (some ⟨1, "secret", "user"⟩) else Except.ok none

/-- The same store after the user's password was changed to
`"changed"` (the old `"secret"` is revoked). -/
def exStoreRevoked : CredStore := fun un =>
  if un == "user" then Except.ok (some ⟨1, "changed", "user"⟩) else Except.ok none

/-- A concrete credential store for the key-collision scenario: the only
user's username is `"a:b"` and its stored password is `"c"`. -/
def exColStore : CredStore := fun un =>
  if un == "a:b" then Except.ok (some ⟨7, "c", "user"⟩) else Except.ok none

/-- A concrete bcrypt collaborator: the stored "hash" is the password
itself and verification is string equality, never failing. -/
def ex_verify : VerifyFn := fun p h => Except.ok (p == h)

/-- A concrete UTF-8 decoder: decodes exactly the byte list of `"hi"`. -/
def ex_utf8 : Utf8Decode := fun bs => if bs = [104, 105] then some "hi" else none

/-- A concrete request: no `Host` header, body `"hi"` with an exact size
hint. -/
def ex_req : Request := ⟨none, "GET", "/hello", ⟨some 2, Except.ok [104, 105]⟩⟩

/-- A concrete request whose body stream fails with a transport error. -/
def ex_badreq : Request := ⟨none, "GET", "/x", ⟨some 1, Except.error "reset"⟩⟩

/-- A concrete downstream handler: empty `200` response. -/
def ex_handler : Body → Response := fun _ => ⟨200, ⟨some 0, Except.ok []⟩⟩

/-- A concrete audit sink that always succeeds. -/
def ex_sink : Sink := fun _ _ => true

/-- The middleware output of `ex_req` under `ex_utf8`, `ex_sink` and
`ex_handler`, written out. -/
def ex_out : MidOutput :=
  { downstream_body := body_from_bytes [104, 105]
    caller_body := body_from_bytes []
    status := 200
    record := ⟨"Unknown", "GET", "/hello", some "hi", none, 200⟩
    audit := (1, []) }

/-! ## Helper lemmas -/

/-- A body is captured exactly when its declared size is known and at
most the ceiling. -/
theorem should_log_iff (b : Body) :
    should_log b = true ↔ ∃ n, b.size_hint_upper = some n ∧ n ≤ MAX_BODY_SIZE := by
  unfold should_log
  cases h : b.size_hint_upper with
  | none => simp
  | some n => simp

/-- A body over the ceiling (or of undeclared size) is passed through
untouched and nothing is recorded for it. -/
theorem capture_not_logged (utf8 : Utf8Decode) (b : Body)
    (h : should_log b = false) : capture utf8 b = Outcome.ok (b, none) := by
  unfold capture
  rw [h]
  simp

/-- A body within the ceiling whose stream collects successfully is
rebuilt from its bytes, and the UTF-8 decoding of the bytes is
recorded. -/
theorem capture_logged_ok (utf8 : Utf8Decode) (b : Body) (bs : List Nat)
    (h : should_log b = true) (hc : b.collect = Except.ok bs) :
    capture utf8 b = Outcome.ok (body_from_bytes bs, utf8 bs) := by
  unfold capture buffer_and_print
  rw [h, hc]
  simp

/-- A body within the ceiling whose stream fails with a transport error
makes the capture phase panic (the `unwrap()` in `buffer_and_print`). -/
theorem capture_logged_transport (utf8 : Utf8Decode) (b : Body) (t : String)
    (h : should_log b = true) (hc : b.collect = Except.error t) :
    capture utf8 b = Outcome.panicked := by
  unfold capture buffer_and_print
  rw [h, hc]
  simp

/-- Inversion for a successful capture phase. -/
theorem capture_ok_inv (utf8 : Utf8Decode) (b b' : Body) (os : Option String)
    (h : capture utf8 b = Outcome.ok (b', os)) :
    (should_log b = true ∧
        ∃ bs, b.collect = Except.ok bs ∧ b' = body_from_bytes bs ∧ os = utf8 bs)
      ∨ (should_log b = false ∧ b' = b ∧ os = none) := by
  cases hsl : should_log b with
  | false =>
    rw [capture_not_logged utf8 b hsl] at h
    cases h
    exact Or.inr ⟨rfl, rfl, rfl⟩
  | true =>
    cases hc : b.collect with
    | error t =>
      rw [capture_logged_transport utf8 b t hsl hc] at h
      cases h
    | ok bs =>
      rw [capture_logged_ok utf8 b bs hsl hc] at h
      cases h
      exact Or.inl ⟨rfl, bs, rfl, rfl, rfl⟩

/-- Forward computation of the middleware on successful capture phases. -/
theorem log_run (utf8 : Utf8Decode) (sink : Sink) (req : Request)
    (handler : Body → Response) (dsB : Body) (rs : Option String) (h0 : String)
    (cb : Body) (ss : Option String)
    (h1 : capture utf8 req.body = Outcome.ok (dsB, rs))
    (h2 : host_of req = Except.ok h0)
    (h3 : capture utf8 (handler dsB).body = Outcome.ok (cb, ss)) :
    log_request_response utf8 sink req handler = Outcome.ok
      { downstream_body := dsB
        caller_body := cb
        status := (handler dsB).status
        record := ⟨h0, req.method, req.uri, rs, ss, (handler dsB).status⟩
        audit := audit_run (sink ⟨h0, req.method, req.uri, rs, ss, (handler dsB).status⟩) } := by
  unfold log_request_response
  rw [h1]
  dsimp only
  rw [h2]
  dsimp only
  rw [h3]

/-- Inversion for a successful run of the middleware. -/
theorem log_ok_inv (utf8 : Utf8Decode) (sink : Sink) (req : Request)
    (handler : Body → Response) (out : MidOutput)
    (h : log_request_response utf8 sink req handler = Outcome.ok out) :
    ∃ dsB rs h0 cb ss,
      capture utf8 req.body = Outcome.ok (dsB, rs)
      ∧ host_of req = Except.ok h0
      ∧ capture utf8 (handler dsB).body = Outcome.ok (cb, ss)
      ∧ out = { downstream_body := dsB
                caller_body := cb
                status := (handler dsB).status
                record := ⟨h0, req.method, req.uri, rs, ss, (handler dsB).status⟩
                audit := audit_run (sink ⟨h0, req.method, req.uri, rs, ss, (handler dsB).status⟩) } := by
  unfold log_request_response at h
  cases hc1 : capture utf8 req.body with
  | err e => rw [hc1] at h; simp at h
  | panicked => rw [hc1] at h; simp at h
  | ok p1 =>
    obtain ⟨dsB, rs⟩ := p1
    rw [hc1] at h
    dsimp only at h
    cases hc2 : host_of req with
    | error e => rw [hc2] at h; simp at h
    | ok h0 =>
      rw [hc2] at h
      dsimp only at h
      cases hc3 : capture utf8 (handler dsB).body with
      | err e => rw [hc3] at h; simp at h
      | panicked => rw [hc3] at h; simp at h
      | ok p2 =>
        obtain ⟨cb, ss⟩ := p2
        rw [hc3] at h
        dsimp only at h
        cases h
        exact ⟨dsB, rs, h0, cb, ss, rfl, rfl, hc3, rfl⟩

/-- A key that is not in the cache misses and leaves the cache
unchanged. -/
theorem cache_get_of_find_none (c : Cache) (key : String) (now : Nat)
    (h : cache_find c key = none) : cache_get c key now = (none, c) := by
  induction c with
  | nil => rfl
  | cons kv rest ih =>
    obtain ⟨k, e⟩ := kv
    unfold cache_find at h
    unfold cache_get
    by_cases hk : k = key
    · rw [if_pos hk] at h; cases h
    · rw [if_neg hk] at h
      rw [if_neg hk, ih h]

/-- An expired entry (its last store or hit `cache_ttl` seconds or more
ago) is never served: the read misses and leaves the cache unchanged. -/
theorem cache_get_expired (c : Cache) (key : String) (now : Nat) (e : CacheEntry)
    (hfind : cache_find c key = some e) (hexp : cache_ttl ≤ now - e.stamp) :
    cache_get c key now = (none, c) := by
  induction c with
  | nil => cases hfind
  | cons kv rest ih =>
    obtain ⟨k, e'⟩ := kv
    unfold cache_find at hfind
    unfold cache_get
    by_cases hk : k = key
    · rw [if_pos hk] at hfind
      cases hfind
      rw [if_pos hk, if_neg (by omega)]
    · rw [if_neg hk] at hfind
      rw [if_neg hk, ih hfind]

/-- A fresh entry (its last store or hit less than `cache_ttl` seconds
ago) is served, and — `time_refresh` — its timestamp is renewed to the
time of the hit. -/
theorem cache_get_fresh (c : Cache) (key : String) (now : Nat) (e : CacheEntry)
    (hfind : cache_find c key = some e) (hfresh : now - e.stamp < cache_ttl) :
    (cache_get c key now).1 = some e.value
    ∧ cache_find (cache_get c key now).2 key = some ⟨now, e.value⟩ := by
  induction c with
  | nil => cases hfind
  | cons kv rest ih =>
    obtain ⟨k, e'⟩ := kv
    unfold cache_find at hfind
    unfold cache_get
    by_cases hk : k = key
    · rw [if_pos hk] at hfind
      cases hfind
      rw [if_pos hk, if_pos hfresh]
      exact ⟨rfl, by unfold cache_find; rw [if_pos hk]⟩
    · rw [if_neg hk] at hfind
      have h' := ih hfind
      rw [if_neg hk]
      refine ⟨h'.1, ?_⟩
      unfold cache_find
      rw [if_neg hk]
      exact h'.2

/-! ## Claims -/

/-- C1: for every role string and capability, `try_upgrade` succeeds if
and only if the capability's `is_satisfied` holds of the one-element role
set; on success the returned user keeps the same id, username and role;
on failure the error is exactly `Forbidden`; `Unknown` is always
satisfied and `Admin` is satisfied iff the role set contains
`"admin"`. -/
theorem C1_try_upgrade_iff (u : User) (cap : Role) :
    ((∃ u', try_upgrade u cap = Except.ok u') ↔ cap.is_satisfied [u.role] = true)
    ∧ (∀ u', try_upgrade u cap = Except.ok u' →
        u'.id = u.id ∧ u'.username = u.username ∧ u'.role = u.role)
    ∧ (cap.is_satisfied [u.role] = false →
        try_upgrade u cap = Except.error (ApiError.clientError ClientError.forbidden))
    ∧ Unknown.is_satisfied [u.role] = true
    ∧ Admin.is_satisfied [u.role] = [u.role].contains ADMIN_ROLE := by
  refine ⟨?_, ?_, ?_, rfl, rfl⟩
  · cases h : cap.is_satisfied [u.role] with
    | false =>
      simp only [Bool.false_eq_true, iff_false]
      rintro ⟨u', hu'⟩
      unfold try_upgrade at hu'
      rw [h] at hu'
      simp at hu'
    | true =>
      simp only [iff_true]
      exact ⟨⟨u.id, u.username, u.role⟩, by unfold try_upgrade; rw [h]; simp⟩
  · intro u' hu'
    unfold try_upgrade at hu'
    cases h : cap.is_satisfied [u.role] with
    | false => rw [h] at hu'; simp at hu'
    | true =>
      rw [h] at hu'
      simp only [if_true] at hu'
      cases hu'
      exact ⟨rfl, rfl, rfl⟩
  · intro h
    unfold try_upgrade
    rw [h]
    simp

/-- Witness for C1: a user with role `"user"` cannot be upgraded to
`Admin` and gets exactly `Forbidden`. -/
theorem C1_witness :
    try_upgrade ⟨1, "u", "user"⟩ Admin
      = Except.error (ApiError.clientError ClientError.forbidden) :=
  (C1_try_upgrade_iff ⟨1, "u", "user"⟩ Admin).2.2.1 (by decide)

/-- C7: `authenticate` answers an unknown username and a known username
with a non-matching password with the very same `Unauthorized` error
value, and never returns `Ok` when the verifier rejects the password. -/
theorem C7_unauthorized_indistinguishable (store : CredStore) (verify : VerifyFn)
    (un pw : String) :
    (store un = Except.ok none →
      authenticate store verify un pw
        = Except.error (ApiError.clientError ClientError.unauthorized))
    ∧ (∀ row, store un = Except.ok (some row) →
        verify pw row.password = Except.ok false →
        authenticate store verify un pw
          = Except.error (ApiError.clientError ClientError.unauthorized))
    ∧ (∀ row u, store un = Except.ok (some row) →
        verify pw row.password = Except.ok false →
        ¬ authenticate store verify un pw = Except.ok u) := by
  refine ⟨?_, ?_, ?_⟩
  · intro h
    unfold authenticate
    rw [h]
  · intro row h hv
    unfold authenticate
    rw [h]
    dsimp only
    rw [hv]
  · intro row u h hv hok
    unfold authenticate at hok
    rw [h] at hok
    dsimp only at hok
    rw [hv] at hok
    dsimp only at hok
    cases hok

/-- Witness for C7: with a one-user store, the unknown username
`"nobody"` and the known username `"user"` with a wrong password yield
the same `Unauthorized` value. -/
theorem C7_witness :
    authenticate exStore ex_verify "nobody" "x"
      = Except.error (ApiError.clientError ClientError.unauthorized)
    ∧ authenticate exStore ex_verify "user" "wrong"
      = Except.error (ApiError.clientError ClientError.unauthorized) :=
  ⟨(C7_unauthorized_indistinguishable exStore ex_verify "nobody" "x").1 (by decide),
   (C7_unauthorized_indistinguishable exStore ex_verify "user" "wrong").2.1
     ⟨1, "secret", "user"⟩ (by decide) (by decide)⟩

/-- Counterexample for C4: with a session mechanism present but holding
no stored user, and a perfectly valid Basic authorization header whose
credentials the store would accept, the resolver nevertheless terminates
with the redirect-to-login error instead of proceeding to
credential-based authentication. -/
theorem C4_counterexample :
    from_request_parts Unknown (some ⟨Except.ok none⟩) (some ("user", "secret"))
        exStore ex_verify
      = Except.error (ApiError.redirection Redirection.toLogin)
    ∧ authenticate exStore ex_verify "user" "secret"
      = Except.ok ⟨1, "user", "user"⟩ := by
  exact ⟨rfl, by decide⟩

/-- C4 (amended): when a session mechanism is available but holds no
stored user, the resolver terminates the request with the
redirect-to-login error — whatever the authorization header and
credential store are — and credential-based authentication is reached
only when no session mechanism is available. -/
theorem C4_amended (R : Role) (auth : Option (String × String))
    (store : CredStore) (verify : VerifyFn) :
    from_request_parts R (some ⟨Except.ok none⟩) auth store verify
      = Except.error (ApiError.redirection Redirection.toLogin)
    ∧ (∀ un pw u, authenticate store verify un pw = Except.ok u →
        from_request_parts R none (some (un, pw)) store verify = try_upgrade u R) := by
  constructor
  · rfl
  · intro un pw u h
    unfold from_request_parts extract_user_from_session
    dsimp only
    rw [h]

/-- Witness for C4 (amended): the empty-session redirect at a concrete
input, and a concrete credential-path run. -/
theorem C4_witness :
    from_request_parts Unknown none (some ("user", "secret")) exStore ex_verify
      = try_upgrade ⟨1, "user", "user"⟩ Unknown :=
  (C4_amended Unknown (some ("user", "secret")) exStore ex_verify).2
    "user" "secret" ⟨1, "user", "user"⟩ (by decide)

/-- Counterexample for C3: the user authenticates at `t = 0`; the
password is then revoked; cache hits at `t = 20` and `t = 40` keep being
served from the cache because `time_refresh` renews the entry's
timestamp on every hit, so the revoked password is still accepted
40 seconds after the one and only verification — beyond the stated
30-second TTL measured from the original verification, which the
backing `authenticate` would reject. -/
theorem C3_counterexample :
    (cached_authenticate exStore ex_verify "user" "secret" 0 []).1
      = Except.ok ⟨1, "user", "user"⟩
    ∧ (cached_authenticate exStoreRevoked ex_verify "user" "secret" 40
        (cached_authenticate exStoreRevoked ex_verify "user" "secret" 20
          (cached_authenticate exStore ex_verify "user" "secret" 0 []).2).2).1
      = Except.ok ⟨1, "user", "user"⟩
    ∧ authenticate exStoreRevoked ex_verify "user" "secret"
      = Except.error (ApiError.clientError ClientError.unauthorized)
    ∧ cache_ttl < 40 - 0 := by
  decide

/-- C3 (amended): an entry whose timestamp — its last store or, because
of `time_refresh`, its last hit — is `cache_ttl` seconds old or older is
never served: the call performs the backing verification instead.  But a
hit renews the timestamp, so repeated calls with identical credentials
extend the window during which a revoked password is accepted
arbitrarily far beyond the TTL measured from the original
verification. -/
theorem C3_amended (store : CredStore) (verify : VerifyFn) (un pw : String)
    (now : Nat) (c : Cache) :
    ((∀ e, cache_find c (auth_key un pw) = some e → cache_ttl ≤ now - e.stamp) →
      (cached_authenticate store verify un pw now c).1
        = authenticate store verify un pw)
    ∧ (∀ key e, cache_find c key = some e → now - e.stamp < cache_ttl →
        (cache_get c key now).1 = some e.value
        ∧ cache_find (cache_get c key now).2 key = some ⟨now, e.value⟩) := by
  constructor
  · intro hexp
    unfold cached_authenticate
    dsimp only
    have hmiss : cache_get c (auth_key un pw) now = (none, c) := by
      cases hfind : cache_find c (auth_key un pw) with
      | none => exact cache_get_of_find_none c _ now hfind
      | some e => exact cache_get_expired c _ now e hfind (hexp e hfind)
    rw [hmiss]
    dsimp only
    cases ha : authenticate store verify un pw with
    | ok u => rfl
    | error e => rfl
  · intro key e hfind hfresh
    exact cache_get_fresh c key now e hfind hfresh

/-- Witness for C3 (amended): a cold cache performs the backing call,
and a 10-second-old entry is served and refreshed. -/
theorem C3_witness :
    (cached_authenticate exStore ex_verify "user" "secret" 0 []).1
      = authenticate exStore ex_verify "user" "secret"
    ∧ (cache_get [("k", ⟨0, ⟨1, "user", "user"⟩⟩)] "k" 10).1
        = some ⟨1, "user", "user"⟩ :=
  ⟨(C3_amended exStore ex_verify "user" "secret" 0 []).1 (fun e h => nomatch h),
   ((C3_amended exStore ex_verify "user" "secret" 10
      [("k", ⟨0, ⟨1, "user", "user"⟩⟩)]).2 "k" ⟨0, ⟨1, "user", "user"⟩⟩
      (by decide) (by decide)).1⟩

/-- C10: the memoization key `username + ":" + password` is not
injective: the distinct credential pairs `("a:b", "c")` and
`("a", "b:c")` share the key `"a:b:c"`, so after the first pair is
verified and cached, a call with the second pair within the TTL is
served the first pair's cached user (here visibly so: the returned
username is `"a:b"`), although the backing `authenticate` would reject
the second pair. -/
theorem C10_key_collision :
    auth_key "a:b" "c" = auth_key "a" "b:c"
    ∧ (("a:b", "c") : String × String) ≠ ("a", "b:c")
    ∧ (cached_authenticate exColStore ex_verify "a:b" "c" 0 []).1
        = Except.ok ⟨7, "a:b", "user"⟩
    ∧ (cached_authenticate exColStore ex_verify "a" "b:c" 10
        (cached_authenticate exColStore ex_verify "a:b" "c" 0 []).2).1
        = Except.ok ⟨7, "a:b", "user"⟩
    ∧ authenticate exColStore ex_verify "a" "b:c"
        = Except.error (ApiError.clientError ClientError.unauthorized) := by
  decide

/-- The retry loop never makes more attempts than its fuel allows. -/
theorem audit_go_le (sink : Nat → Bool) (tries fuel : Nat) :
    (audit_go sink tries fuel).1 ≤ fuel := by
  induction fuel generalizing tries with
  | zero => simp [audit_go]
  | succ n ih =>
    unfold audit_go
    by_cases h : sink tries = true
    · rw [if_pos h]
      omega
    · rw [if_neg h]
      dsimp only
      have := ih (tries + 1)
      omega

/-- Counterexample for C2: the sleeps of the audit retry loop are
`(tries + 1) * 5` seconds computed *after* `tries` is incremented, so
when every attempt fails the loop makes 3 attempts with sleeps of 10,
15 and 20 seconds — not the 5, 10 and 15 seconds the claim states — and
in the fail-fail-succeed scenario the two delays between attempts are
10 and 15 seconds, not 5 and 10. -/
theorem C2_counterexample :
    audit_run (fun _ => false) = (3, [10, 15, 20])
    ∧ ¬ audit_run (fun _ => false) = (3, [5, 10, 15])
    ∧ audit_run (fun i => decide (i = 2)) = (3, [10, 15])
    ∧ ¬ audit_run (fun i => decide (i = 2)) = (3, [5, 10]) := by
  decide

/-- C2 (amended): the caller-visible response (status and body) of the
middleware is the same whatever the audit sink does; the detached task
makes at most 3 write attempts; when the sink fails the first two
attempts and succeeds on the third, exactly 3 attempts occur with
increasing delays of 10 then 15 seconds between them; and when every
attempt fails the task gives up after 3 attempts and sleeps of 10, 15
and 20 seconds, surfacing nothing. -/
theorem C2_amended (utf8 : Utf8Decode) (s1 s2 : Sink) (req : Request)
    (handler : Body → Response) (sink : Nat → Bool) :
    response_view (log_request_response utf8 s1 req handler)
      = response_view (log_request_response utf8 s2 req handler)
    ∧ (audit_run sink).1 ≤ 3
    ∧ (sink 0 = false → sink 1 = false → sink 2 = true →
        audit_run sink = (3, [10, 15]) ∧ 10 < 15)
    ∧ audit_run (fun _ => false) = (3, [10, 15, 20]) := by
  refine ⟨?_, audit_go_le sink 0 3, ?_, rfl⟩
  · unfold log_request_response
    cases hc1 : capture utf8 req.body with
    | err e => rfl
    | panicked => rfl
    | ok p1 =>
      obtain ⟨dsB, rs⟩ := p1
      dsimp only
      cases hc2 : host_of req with
      | error e => rfl
      | ok h0 =>
        dsimp only
        cases hc3 : capture utf8 (handler dsB).body with
        | err e => rfl
        | panicked => rfl
        | ok p2 => rfl
  · intro h0 h1 h2
    refine ⟨?_, by omega⟩
    simp [audit_run, audit_go, h0, h1, h2]

/-- Witness for C2 (amended): the fail-fail-succeed sink makes exactly
3 attempts with delays 10 and 15 seconds. -/
theorem C2_witness :
    audit_run (fun i => decide (i = 2)) = (3, [10, 15]) ∧ 10 < 15 :=
  (C2_amended ex_utf8 ex_sink ex_sink ex_req ex_handler
    (fun i => decide (i = 2))).2.2.1 (by decide) (by decide) (by decide)

/-- C5: in the audit record built by the middleware, `request_body`
(respectively `response_body`) is `some s` exactly when the
corresponding body's declared size is at most the 8192-byte ceiling and
its bytes decode as valid UTF-8 to `s`; a body over the ceiling and a
non-UTF-8 body within the ceiling both yield `none` for their field
without failing the request. -/
theorem C5_record_fields (utf8 : Utf8Decode) (sink : Sink) (req : Request)
    (handler : Body → Response) :
    (∀ out, log_request_response utf8 sink req handler = Outcome.ok out →
      (∀ s, out.record.request_body = some s ↔
        ((∃ n, req.body.size_hint_upper = some n ∧ n ≤ MAX_BODY_SIZE)
          ∧ ∃ bs, req.body.collect = Except.ok bs ∧ utf8 bs = some s))
      ∧ (∀ s, out.record.response_body = some s ↔
        ((∃ n, (handler out.downstream_body).body.size_hint_upper = some n
            ∧ n ≤ MAX_BODY_SIZE)
          ∧ ∃ bs, (handler out.downstream_body).body.collect = Except.ok bs
            ∧ utf8 bs = some s)))
    ∧ (should_log req.body = false → should_log (handler req.body).body = false →
        ∀ h0, host_of req = Except.ok h0 →
        ∃ out, log_request_response utf8 sink req handler = Outcome.ok out
          ∧ out.record.request_body = none ∧ out.record.response_body = none)
    ∧ (∀ bs, should_log req.body = true → req.body.collect = Except.ok bs →
        utf8 bs = none → should_log (handler (body_from_bytes bs)).body = false →
        ∀ h0, host_of req = Except.ok h0 →
        ∃ out, log_request_response utf8 sink req handler = Outcome.ok out
          ∧ out.record.request_body = none) := by
  refine ⟨?_, ?_, ?_⟩
  · intro out h
    obtain ⟨dsB, rs, h0, cb, ss, hc1, hc2, hc3, hout⟩ :=
      log_ok_inv utf8 sink req handler out h
    subst hout
    constructor
    · intro s
      dsimp only
      rcases capture_ok_inv utf8 req.body dsB rs hc1 with
        ⟨hsl, bs, hbs, hb', hrs⟩ | ⟨hsl, hb', hrs⟩
      · subst hrs
        constructor
        · intro hs
          exact ⟨(should_log_iff req.body).mp hsl, bs, hbs, hs⟩
        · rintro ⟨_, bs', hbs', hu⟩
          rw [hbs] at hbs'
          cases hbs'
          exact hu
      · subst hrs
        constructor
        · intro hs
          cases hs
        · rintro ⟨⟨n, hn, hle⟩, _⟩
          rw [(should_log_iff req.body).mpr ⟨n, hn, hle⟩] at hsl
          cases hsl
    · intro s
      dsimp only
      rcases capture_ok_inv utf8 (handler dsB).body cb ss hc3 with
        ⟨hsl, bs, hbs, hb', hss⟩ | ⟨hsl, hb', hss⟩
      · subst hss
        constructor
        · intro hs
          exact ⟨(should_log_iff (handler dsB).body).mp hsl, bs, hbs, hs⟩
        · rintro ⟨_, bs', hbs', hu⟩
          rw [hbs] at hbs'
          cases hbs'
          exact hu
      · subst hss
        constructor
        · intro hs
          cases hs
        · rintro ⟨⟨n, hn, hle⟩, _⟩
          rw [(should_log_iff (handler dsB).body).mpr ⟨n, hn, hle⟩] at hsl
          cases hsl
  · intro hsl1 hsl2 h0 hh0
    refine ⟨_, log_run utf8 sink req handler req.body none h0 (handler req.body).body none
      (capture_not_logged utf8 req.body hsl1) hh0
      (capture_not_logged utf8 (handler req.body).body hsl2), rfl, rfl⟩
  · intro bs hsl hcol hutf hsl2 h0 hh0
    have hc1 : capture utf8 req.body = Outcome.ok (body_from_bytes bs, none) := by
      rw [capture_logged_ok utf8 req.body bs hsl hcol, hutf]
    refine ⟨_, log_run utf8 sink req handler (body_from_bytes bs) none h0
      (handler (body_from_bytes bs)).body none hc1 hh0
      (capture_not_logged utf8 (handler (body_from_bytes bs)).body hsl2), rfl⟩

/-- Witness for C5: the concrete request with body `"hi"` has
`request_body = some "hi"` recorded. -/
theorem C5_witness : ex_out.record.request_body = some "hi" :=
  (((C5_record_fields ex_utf8 ex_sink ex_req ex_handler).1 ex_out (by decide)).1
    "hi").mpr ⟨⟨2, rfl, by decide⟩, [104, 105], rfl, rfl⟩

/-- C6: whether or not a body was buffered for capture, the body stream
handed to the downstream handler collects to exactly the bytes of the
original request body, and the body returned to the caller collects to
exactly the bytes the handler produced. -/
theorem C6_body_roundtrip (utf8 : Utf8Decode) (sink : Sink) (req : Request)
    (handler : Body → Response) :
    ∀ out, log_request_response utf8 sink req handler = Outcome.ok out →
      out.downstream_body.collect = req.body.collect
      ∧ out.caller_body.collect = (handler out.downstream_body).body.collect := by
  intro out h
  obtain ⟨dsB, rs, h0, cb, ss, hc1, hc2, hc3, hout⟩ :=
    log_ok_inv utf8 sink req handler out h
  subst hout
  constructor
  · dsimp only
    rcases capture_ok_inv utf8 req.body dsB rs hc1 with
      ⟨_, bs, hbs, hb', _⟩ | ⟨_, hb', _⟩
    · rw [hb', hbs]
      rfl
    · rw [hb']
  · dsimp only
    rcases capture_ok_inv utf8 (handler dsB).body cb ss hc3 with
      ⟨_, bs, hbs, hb', _⟩ | ⟨_, hb', _⟩
    · rw [hb', hbs]
      rfl
    · rw [hb']

/-- Witness for C6: the round-trip identity at the concrete request. -/
theorem C6_witness :
    ex_out.downstream_body.collect = ex_req.body.collect
    ∧ ex_out.caller_body.collect = (ex_handler ex_out.downstream_body).body.collect :=
  C6_body_roundtrip ex_utf8 ex_sink ex_req ex_handler ex_out (by decide)

/-- C8: a transport error while reading a body that is being captured in
the pre- or post-phase is fatal to the request: `buffer_and_print`'s
`unwrap()` panics, the middleware neither succeeds nor records `none`,
and the outermost panic-catching layer surfaces the failure to the
caller as the internal error response. -/
theorem C8_transport_error_fatal (utf8 : Utf8Decode) (sink : Sink) (req : Request)
    (handler : Body → Response) :
    (∀ t, should_log req.body = true → req.body.collect = Except.error t →
      log_request_response utf8 sink req handler = Outcome.panicked
      ∧ catch_panic_run (log_request_response utf8 sink req handler)
          = Final.failure (ApiError.internalError (InternalError.other "panic")))
    ∧ (∀ t dsB rs h0, capture utf8 req.body = Outcome.ok (dsB, rs) →
        host_of req = Except.ok h0 →
        should_log (handler dsB).body = true →
        (handler dsB).body.collect = Except.error t →
        log_request_response utf8 sink req handler = Outcome.panicked
        ∧ catch_panic_run (log_request_response utf8 sink req handler)
            = Final.failure (ApiError.internalError (InternalError.other "panic")))
    ∧ (∀ b t, b.collect = Except.error t → buffer_and_print b = Outcome.panicked) := by
  refine ⟨?_, ?_, ?_⟩
  · intro t hsl hcol
    have hp : log_request_response utf8 sink req handler = Outcome.panicked := by
      unfold log_request_response
      rw [capture_logged_transport utf8 req.body t hsl hcol]
    exact ⟨hp, by rw [hp]; rfl⟩
  · intro t dsB rs h0 hc1 hh0 hsl hcol
    have hp : log_request_response utf8 sink req handler = Outcome.panicked := by
      unfold log_request_response
      rw [hc1]
      dsimp only
      rw [hh0]
      dsimp only
      rw [capture_logged_transport utf8 (handler dsB).body t hsl hcol]
    exact ⟨hp, by rw [hp]; rfl⟩
  · intro b t h
    unfold buffer_and_print
    rw [h]

/-- Witness for C8: the concrete request whose body stream fails with
`"reset"` panics the middleware and the caller receives the internal
error response of the panic handler. -/
theorem C8_witness :
    log_request_response ex_utf8 ex_sink ex_badreq ex_handler = Outcome.panicked
    ∧ catch_panic_run (log_request_response ex_utf8 ex_sink ex_badreq ex_handler)
        = Final.failure (ApiError.internalError (InternalError.other "panic")) :=
  (C8_transport_error_fatal ex_utf8 ex_sink ex_badreq ex_handler).1 "reset"
    (by decide) rfl
